import Mathlib

/-!
Shallow embedding of `v0.5/tools/submission/submission-checker.py` (the MLPerf
inference submission checker) and proofs about its checking logic.

Modelling conventions:
* Python strings are Lean `String`s; character-class tests mirror the regex
  classes used by the source (`\w`, `\s`, and the explicit classes of the two
  summary-file patterns).
* Files are modelled by their line lists; the file system seen by the tree
  walker is an explicit `FS` record of directory listings, file listings,
  existence flags and file contents.
* Python exceptions (KeyError on dict lookups, ValueError from `int`/`float`)
  are modelled with `Except Unit`/`Option`.
* Numeric values are modelled exactly as rationals (`ℚ`); every numeral the
  checker manipulates in the verified scenarios is exactly representable.
* `log.error`/`log.warning` output that the checking logic produces is
  modelled as a list of emitted message strings (the directory-name piece of
  each message, which is pure plumbing, is omitted).
-/

namespace SubmissionChecker

/-! ## Character classes and low-level string utilities -/

/-- Python regex class `\s` (ASCII whitespace as used by `re` and `str.strip`). -/
def isSpaceChar (c : Char) : Bool :=
  c == ' ' || c == '\t' || c == '\n' || c == '\r' || c == '\x0b' || c == '\x0c'

/-- Python regex class `\w` (word characters), restricted to ASCII as in the logs. -/
def isWordChar (c : Char) : Bool :=
  c.isAlphanum || c == '_'

/-- The key class `[\w\s.\(\)\/]` of the summary key/value pattern. -/
def isClass1 (c : Char) : Bool :=
  isWordChar c || isSpaceChar c || c == '.' || c == '(' || c == ')' || c == '/'

/-- The value class `[\w\+\.]` of the summary key/value pattern. -/
def isClass2 (c : Char) : Bool :=
  isWordChar c || c == '+' || c == '.'

/-- The class `[\d\.]` of the accuracy-value patterns. -/
def isDigitDotChar (c : Char) : Bool :=
  c.isDigit || c == '.'

/-- Bool-valued list prefix test (used to model Python substring search). -/
def listIsPrefixOf : List Char → List Char → Bool
  | [], _ => true
  | _ :: _, [] => false
  | a :: as, b :: bs => a == b && listIsPrefixOf as bs

/-- Does `needle` occur as a contiguous sublist of the second argument? -/
def listContainsSub (needle : List Char) : List Char → Bool
  | [] => listIsPrefixOf needle []
  | c :: rest => listIsPrefixOf needle (c :: rest) || listContainsSub needle rest

/-- Python `needle in hay` on strings (substring containment). -/
def strContains (needle hay : String) : Bool :=
  listContainsSub needle.data hay.data

/-- Python `hay.startswith(p)`. -/
def strStartsWith (hay p : String) : Bool :=
  listIsPrefixOf p.data hay.data

/-- Match a literal at the front, returning the rest on success. -/
def matchLit : List Char → List Char → Option (List Char)
  | [], s => some s
  | _ :: _, [] => none
  | a :: as, b :: bs => if a == b then matchLit as bs else none

/-- Python `str.strip()` for the whitespace class. -/
def trimChars (cs : List Char) : List Char :=
  ((cs.dropWhile isSpaceChar).reverse.dropWhile isSpaceChar).reverse

/-- Decimal value of a digit list. -/
def digitsToNat (cs : List Char) : Nat :=
  cs.foldl (fun n c => n * 10 + (c.toNat - 48)) 0

/-- Python `int(s)` on the decimal numerals produced by the summary parser:
optional sign, then digits.  Non-numeral inputs raise, modelled as `none`. -/
def pyInt? (s : String) : Option Int :=
  let cs := trimChars s.data
  let signed : Int × List Char :=
    match cs with
    | '+' :: r => (1, r)
    | '-' :: r => (-1, r)
    | r => (1, r)
  if signed.2 ≠ [] ∧ signed.2.all Char.isDigit then
    some (signed.1 * (digitsToNat signed.2 : Int))
  else none

/-- Read an optional sign character. -/
def readSign : List Char → Int × List Char
  | '+' :: r => (1, r)
  | '-' :: r => (-1, r)
  | r => (1, r)

/-- Python `float(s)` on decimal numerals (optional sign, digits, optional
fractional part, optional exponent), with the value kept exactly as a
rational.  Other float spellings (inf/nan) are not representable in `ℚ` and
do not occur in the scenarios under verification; they are mapped to `none`
together with genuine `ValueError` inputs. -/
def pyFloat? (s : String) : Option ℚ :=
  let cs := trimChars s.data
  let sg := readSign cs
  let ip := sg.2.takeWhile Char.isDigit
  let r1 := sg.2.drop ip.length
  let core : Option (ℚ × List Char) :=
    match r1 with
    | '.' :: r2 =>
      let fp := r2.takeWhile Char.isDigit
      if ip.length = 0 ∧ fp.length = 0 then none
      else some ((digitsToNat ip : ℚ) + (digitsToNat fp : ℚ) / ((10 : ℚ) ^ fp.length),
        r2.drop fp.length)
    | r2 => if ip.length = 0 then none else some ((digitsToNat ip : ℚ), r2)
  match core with
  | none => none
  | some (mag, rest) =>
    match rest with
    | [] => some ((sg.1 : ℚ) * mag)
    | e :: r3 =>
      if e == 'e' || e == 'E' then
        let es := readSign r3
        let ed := es.2.takeWhile Char.isDigit
        if ed.length ≠ 0 ∧ es.2.drop ed.length = [] then
          some ((sg.1 : ℚ) * mag * (10 : ℚ) ^ (es.1 * (digitsToNat ed : Int)))
        else none
      else none

/-! ## Static tables of the checker -/

/-- First-match association-list lookup, modelling Python dict indexing for the
static tables (whose keys are distinct). -/
def dictLookup {α : Type} : List (String × α) → String → Option α
  | [], _ => none
  | (k0, v) :: rest, k => if k0 = k then some v else dictLookup rest k

def VALID_MODELS : List String :=
  ["ssd-small", "ssd-large", "mobilenet", "resnet", "gnmt"]

def REQUIRED_PERF_FILES : List String :=
  ["mlperf_log_accuracy.json", "mlperf_log_summary.txt", "mlperf_log_detail.txt"]

def REQUIRED_ACC_FILES : List String :=
  REQUIRED_PERF_FILES ++ ["accuracy.txt"]

def TOMS : ℚ := 1000 * 1000

def PERFORMANCE_SAMPLE_COUNT : List (String × Nat) :=
  [("mobilenet", 1024), ("resnet50", 1024), ("resnet", 1024),
   ("ssd-mobilenet", 256), ("ssd-small", 256),
   ("ssd-resnet34", 64), ("ssd-large", 64),
   ("gnmt", 3903900)]

def ACCURAY_TARGET : List (String × ℚ) :=
  [("mobilenet", 71.68 * 0.98), ("resnet50", 76.46 * 0.99), ("resnet", 76.46 * 0.99),
   ("ssd-mobilenet", 22 * 0.99), ("ssd-small", 22 * 0.99),
   ("ssd-resnet34", 20 * 0.99), ("ssd-large", 20 * 0.99),
   ("gnmt", 23.9 * 0.99)]

def SEEDS : List (String × Int) :=
  [("qsl_rng_seed", 3133965575612453542),
   ("sample_index_rng_seed", 665484352860916858),
   ("schedule_rng_seed", 3622009729038561421)]

def RESULT_VALUE : List (String × String) :=
  [("Offline", "Samples per second"),
   ("Single", "90th percentile latency (ns)"),
   ("Multi", "Samples per query"),
   ("Server", "Scheduled samples per second")]

/-! ## model_map and ignore_errors -/

/-- `model_map`: normalize a raw model name; `none` models Python `None`. -/
def model_map (model : String) : Option String :=
  let m :=
    if strStartsWith model "mobilenet" then "mobilenet"
    else if strStartsWith model "rcnn" then "ssd-small"
    else if strStartsWith model "ssdlite" || strStartsWith model "ssd-inception" ||
        strStartsWith model "yolo" || strStartsWith model "ssd-mobilenet" ||
        strStartsWith model "ssd-resnet50" then "ssd-small"
    else model
  if (dictLookup PERFORMANCE_SAMPLE_COUNT m).isSome then some m else none

/-- `ignore_errors`: the ignorable-error predicate over a detail-log line.
The final branch is Python `if "CAS failed":`, the truthiness of a constant
non-empty string literal, modelled as the corresponding constant test. -/
def ignore_errors (line : String) : Bool :=
  if strContains "check for ERROR in detailed" line then true
  else if strContains "Loadgen built with uncommitted changes" line then true
  else if strContains "Ran out of generated queries to issue before the minimum query count and test duration were reached" line then true
  else if "CAS failed" ≠ "" then true
  else false

/-! ## Summary-file parsing (check_performance_dir, lines 164-175) -/

/-- Drop the regex `\s*`. -/
def skipSpaces (s : List Char) : List Char := s.dropWhile isSpaceChar

/-- Match the regex `\s+` (at least one whitespace character). -/
def skipSpaces1 : List Char → Option (List Char)
  | c :: r => if isSpaceChar c then some (r.dropWhile isSpaceChar) else none
  | [] => none

/-- `re.match("^Result\s+is\s*\:\s+VALID", line)` as a Bool. -/
def matchResultValid (line : String) : Bool :=
  ((((((matchLit "Result".data line.data).bind skipSpaces1).bind
    (matchLit "is".data)).map skipSpaces).bind
    (matchLit ":".data)).bind skipSpaces1).bind (matchLit "VALID".data) |>.isSome

/-- `re.match("^\s*([\w\s.\(\)\/]+)\s*\:\s*([\w\+\.]+).*", line)` with the two
stripped capture groups.  The greedy key group cannot contain a colon, so a
match requires the first character after the maximal run of key-class
characters to be a colon; the value group is the maximal nonempty run of
value-class characters after optional whitespace (so a value is truncated at
its first space). -/
def matchKV (line : String) : Option (String × String) :=
  let cs := line.data
  let p := cs.takeWhile isClass1
  if p.length = 0 then none
  else
    match cs.drop p.length with
    | ':' :: r2 =>
      let r3 := r2.dropWhile isSpaceChar
      let v := r3.takeWhile isClass2
      if v.length = 0 then none
      else some (String.mk (trimChars p), String.mk v)
    | _ => none

/-- The summary-scanning loop of `check_performance_dir`: the `is_valid` flag
and the key/value store `rt` (entries in line order; later entries win). -/
def parseSummary (lines : List String) : Bool × List (String × String) :=
  lines.foldl
    (fun acc line =>
      let v := acc.1 || matchResultValid line
      match matchKV line with
      | some kv => (v, acc.2 ++ [kv])
      | none => (v, acc.2))
    (false, [])

/-- Lookup in `rt` with Python dict semantics: the last write to a key wins. -/
def rtLookup : List (String × String) → String → Option String
  | [], _ => none
  | (k0, v0) :: rest, k =>
    match rtLookup rest k with
    | some v => some v
    | none => if k0 = k then some v0 else none

/-! ## check_performance_dir -/

/-- Render the normalized model for the bad-model log message (`None` for the
Python `None` produced by `model_map` on unknown models). -/
def showModelOpt : Option String → String
  | none => "None"
  | some s => s

/-- The `performance_sample_count` phase of `check_performance_dir`: returns
the updated validity flag (`none` models an uncaught KeyError/ValueError) and
the emitted log messages. -/
def sampleCountPhase (mOpt : Option String) (valid0 : Bool)
    (rt : List (String × String)) : Option Bool × List String :=
  match mOpt.bind (fun m => dictLookup PERFORMANCE_SAMPLE_COUNT m) with
  | some req =>
    match rtLookup rt "performance_sample_count" with
    | none => (none, [])
    | some v =>
      match pyInt? v with
      | none => (none, [])
      | some n =>
        if n < (req : Int) then
          (some false, ["performance_sample_count should be " ++ Nat.repr req])
        else (some valid0, [])
  | none =>
    (some valid0,
      ["performance_sample_count not checked, bad model name " ++ showModelOpt mOpt])

def seedNames : List String :=
  ["qsl_rng_seed", "sample_index_rng_seed", "schedule_rng_seed"]

/-- Decimal rendering of an integer (for the seed-mismatch message). -/
def intRepr : Int → String
  | Int.ofNat m => Nat.repr m
  | Int.negSucc m => "-" ++ Nat.repr (m + 1)

/-- The seed-verification loop: each seed name is looked up in the
summary-derived store `rt` and parsed as an integer (a missing key or parse
failure raises, modelled by a `false` first component, keeping the messages
logged before the failure); mismatches against `SEEDS` are logged only. -/
def checkSeeds : List String → List (String × String) → Bool × List String
  | [], _ => (true, [])
  | s :: rest, rt =>
    match rtLookup rt s with
    | none => (false, [])
    | some v =>
      match pyInt? v, dictLookup SEEDS s with
      | some n, some e =>
        let here := if n = e then [] else [s ++ " wrong, " ++ v ++ "/" ++ intRepr e]
        let r := checkSeeds rest rt
        (r.1, here ++ r.2)
      | _, _ => (false, [])

/-- The detail-log error scan: a warning for every line containing `ERROR`
that the ignore predicate does not accept. -/
def detailWarnings (lines : List String) : List String :=
  lines.filterMap (fun l =>
    if strContains "ERROR" l && !(ignore_errors l) then
      some ("contains error: " ++ l)
    else none)

/-- The result-extraction phase: scenario from `rt["Scenario"]`, result field
name from `RESULT_VALUE`, value parsed as a float, divided by `TOMS` when the
scenario string is a member of `["Single Stream"]`. -/
def resultPhase (rt : List (String × String)) : Except Unit ℚ :=
  match rtLookup rt "Scenario" with
  | none => Except.error ()
  | some scen =>
    match dictLookup RESULT_VALUE scen with
    | none => Except.error ()
    | some key =>
      match rtLookup rt key with
      | none => Except.error ()
      | some v =>
        match pyFloat? v with
        | none => Except.error ()
        | some res => Except.ok (if scen ∈ ["Single Stream"] then res / TOMS else res)

/-- The body of `check_performance_dir` after the summary file has been
parsed into `(valid0, rt)`; `detail?` is the detail-log content (`none` when
the file is missing, whose `open` raises).  Returns the result together with
the emitted log messages. -/
def perfFromRt (mOpt : Option String) (valid0 : Bool) (rt : List (String × String))
    (detail? : Option (List String)) : Except Unit (Bool × ℚ) × List String :=
  let p1 := sampleCountPhase mOpt valid0 rt
  match p1.1 with
  | none => (Except.error (), p1.2)
  | some valid1 =>
    match detail? with
    | none => (Except.error (), p1.2)
    | some dlines =>
      let warn := detailWarnings dlines
      let seeds := checkSeeds seedNames rt
      if seeds.1 then
        match resultPhase rt with
        | Except.error e => (Except.error e, p1.2 ++ warn ++ seeds.2)
        | Except.ok res => (Except.ok (valid1, res), p1.2 ++ warn ++ seeds.2)
      else (Except.error (), p1.2 ++ warn ++ seeds.2)

/-- `check_performance_dir` over the two log files' contents. -/
def check_performance_dir (model : String) (summaryLines detailLines : List String) :
    Except Unit (Bool × ℚ) × List String :=
  let s := parseSummary summaryLines
  perfFromRt (model_map model) s.1 s.2 (some detailLines)

/-- The validity flag of a performance-check outcome (`none` when the call
raised). -/
def validityOf : Except Unit (Bool × ℚ) → Option Bool
  | Except.ok (b, _) => some b
  | Except.error _ => none

/-! ## check_accuracy_dir -/

/-- Try the three accuracy-line patterns of `check_accuracy_dir` in order on
one line (`accuracy=([\d\.]+)`, `mAP=([\d\.]+)`, `BLEU:\s*([\d\.]+)`),
returning the captured group. -/
def matchAccValue (line : String) : Option String :=
  let eqPat : String → Option String := fun lit =>
    match matchLit lit.data line.data with
    | some r =>
      let g := r.takeWhile isDigitDotChar
      if g.length = 0 then none else some (String.mk g)
    | none => none
  match eqPat "accuracy=" with
  | some g => some g
  | none =>
    match eqPat "mAP=" with
    | some g => some g
    | none =>
      match matchLit "BLEU:".data line.data with
      | some r =>
        let r2 := r.dropWhile isSpaceChar
        let g := r2.takeWhile isDigitDotChar
        if g.length = 0 then none else some (String.mk g)
      | none => none

/-- The `accuracy.txt` scan: the first line matching any pattern wins. -/
def scanAccLines : List String → Option String
  | [] => none
  | l :: ls =>
    match matchAccValue l with
    | some g => some g
    | none => scanAccLines ls

/-- `check_accuracy_dir` over the content of `accuracy.txt`.  The trailing
detail-log scan of the source only emits warnings and never changes the
returned flag (see the theorem on `ignore_errors`), so it does not appear in
the returned value.  `Except.error` models the uncaught `float()` ValueError
(or the impossible target-table KeyError). -/
def check_accuracy_dir (model : String) (accLines : List String) : Except Unit Bool :=
  match scanAccLines accLines with
  | none => Except.ok false
  | some accStr =>
    match model_map model with
    | some m =>
      match dictLookup ACCURAY_TARGET m with
      | none => Except.error ()
      | some target =>
        match pyFloat? accStr with
        | none => Except.error ()
        | some a => Except.ok (if a < target then false else true)
    | none => Except.ok true

/-! ## files_diff -/

/-- `files_diff(list1, list2)` with the in-place mutation made explicit: the
result is `(post-state of list1, post-state of list2, returned diff)`.
`List.erase` removes the first occurrence, exactly like Python
`list.remove` guarded by `try/except`.  Python materializes the set
difference in unspecified order; the model fixes the order as a deduplicated
filter (the checker only ever tests the diff for emptiness). -/
def files_diff (list1 list2 : List String) : List String × List String × List String :=
  if list1 ≠ [] ∧ list2 ≠ [] then
    if list2.length < ((list1.erase "mlperf_log_trace.json").erase "results.json").length then
      ((list1.erase "mlperf_log_trace.json").erase "results.json", list2,
        (((list1.erase "mlperf_log_trace.json").erase "results.json").filter
          (fun f => !(list2.contains f))).dedup)
    else
      ((list1.erase "mlperf_log_trace.json").erase "results.json", list2,
        (list2.filter
          (fun f => !((((list1.erase "mlperf_log_trace.json").erase
            "results.json")).contains f))).dedup)
  else (list1, list2, [])

/-! ## compare_json -/

/-- Python `j.get(k)` on a loaded JSON object: `none` when the key is absent
or its value is JSON `null` (both make `j.get(k)` return `None`).  Field
values other than `null` carry no information the checker uses, so they are
modelled as `some ()`. -/
def jGet (j : List (String × Option Unit)) (k : String) : Option Unit :=
  match dictLookup j k with
  | none => none
  | some v => v

/-- `compare_json(fname, template, errors)`: `loaded` is the outcome of
opening and JSON-parsing `fname` (`Except.error` for any parse/IO failure,
which the source catches and records as a single entry).  Returns the pair
(returned boolean, error list after the call); the list grows by appends
only. -/
def compare_json (fname : String) (loaded : Except Unit (List (String × Option Unit)))
    (template : List (String × String)) (errors : List String) : Bool × List String :=
  let error_count := errors.length
  let errors2 :=
    match loaded with
    | Except.error _ => errors ++ [fname ++ " unexpected error"]
    | Except.ok j =>
      let e1 := errors ++ template.filterMap (fun kv =>
        if jGet j kv.1 = none ∧ kv.2 = "required" then
          some (fname ++ " field " ++ kv.1 ++ " missing")
        else none)
      e1 ++ j.filterMap (fun kv =>
        if dictLookup template kv.1 = none then
          some (fname ++ " has unknwon field " ++ kv.1)
        else none)
  (decide (error_count = errors2.length), errors2)

/-! ## The submission tree walker (check_results_dir) -/

deriving instance DecidableEq for Except

/-- The file system the walker sees: directory listings, file listings,
existence tests, and file contents by line.  Mirrors `list_dir`,
`list_files`, `os.path.exists` and `open(...).readlines`. -/
structure FS where
  dirsOf : String → List String
  filesOf : String → List String
  pathExists : String → Bool
  linesOf : String → List String

/-- `os.path.join` with forward slashes. -/
def pjoin (a b : String) : String := a ++ "/" ++ b

/-- The walker's accumulating state: good-submission list, bad-submission
map and result map (both maps write-ordered, last write wins; a result of
`none` is the string `"NoResults"`). -/
structure WalkState where
  good : List String
  bad : List (String × String)
  results : List (String × Option ℚ)
  deriving DecidableEq, Repr

/-- Python `dict[key] = value` on the write-ordered map representation. -/
def mapSet {α : Type} (m : List (String × α)) (k : String) (v : α) : List (String × α) :=
  m ++ [(k, v)]

/-- `check_performance_dir` as called on a directory: opening a missing
summary or detail log raises (the walker catches it). -/
def check_performance_dir_fs (model dir : String) (fs : FS) :
    Except Unit (Bool × ℚ) × List String :=
  if fs.pathExists (pjoin dir "mlperf_log_summary.txt") then
    let s := parseSummary (fs.linesOf (pjoin dir "mlperf_log_summary.txt"))
    perfFromRt (model_map model) s.1 s.2
      (if fs.pathExists (pjoin dir "mlperf_log_detail.txt") then
        some (fs.linesOf (pjoin dir "mlperf_log_detail.txt"))
      else none)
  else (Except.error (), [])

/-- The run-folder naming logic of the performance check. -/
def runList (fs : FS) (scenario name : String) : List String :=
  let n :=
    if scenario = "Server" then ["run_1", "run_2", "run_3", "run_4", "run_5"]
    else ["run_1"]
  if fs.pathExists (pjoin (pjoin name "performance") "run_1") then n
  else if fs.pathExists (pjoin (pjoin name "performance") "run1") then
    (if scenario = "Server" then ["run1", "run2", "run3", "run4", "run5"] else ["run1"])
  else ["."]

/-- One iteration of the per-run performance loop.  A validator exception is
caught: the result degrades to `"NoResults"` and the submission is marked
bad. -/
def processRun (fs : FS) (model name : String) (st : WalkState) (i : String) : WalkState :=
  let perf_path := pjoin (pjoin name "performance") i
  if fs.pathExists perf_path = false then
    { st with bad := mapSet st.bad name (perf_path ++ " missing") }
  else
    let diff := (files_diff (fs.filesOf perf_path) REQUIRED_PERF_FILES).2.2
    let st1 :=
      if diff = [] then st
      else { st with bad := mapSet st.bad name (perf_path ++ " has file list mismatch") }
    match (check_performance_dir_fs model perf_path fs).1 with
    | Except.ok (valid, res) =>
      let st2 := { st1 with results := mapSet st1.results name (some res) }
      if valid then st2
      else { st2 with bad := mapSet st2.bad name (perf_path ++ " has issues") }
    | Except.error _ =>
      let st2 := { st1 with results := mapSet st1.results name none }
      { st2 with bad := mapSet st2.bad name (perf_path ++ " has issues") }

/-- The body of the innermost (per-scenario) loop of `check_results_dir`.
An exception from `check_accuracy_dir` is uncaught in the source and aborts
the walk, hence the `Except`. -/
def processScenario (fs : FS) (results_path system_desc model scenario : String)
    (device_bad : Bool) (st : WalkState) : Except Unit WalkState :=
  let name := pjoin (pjoin (pjoin results_path system_desc) model) scenario
  let st1 := { st with results := mapSet st.results name none }
  let acc_path := pjoin name "accuracy"
  let accStep : Except Unit WalkState :=
    if fs.pathExists (pjoin acc_path "accuracy.txt") = false then
      Except.ok { st1 with bad := mapSet st1.bad name (acc_path ++ " has no accuracy.txt") }
    else
      let diff := (files_diff (fs.filesOf acc_path) REQUIRED_ACC_FILES).2.2
      let st2 :=
        if diff = [] then st1
        else { st1 with bad := mapSet st1.bad name (acc_path ++ " has file list mismatch") }
      match check_accuracy_dir model (fs.linesOf (pjoin acc_path "accuracy.txt")) with
      | Except.error e => Except.error e
      | Except.ok ok =>
        Except.ok (if ok then st2
          else { st2 with bad := mapSet st2.bad name (acc_path ++ " has issues") })
  match accStep with
  | Except.error e => Except.error e
  | Except.ok st3 =>
    let st4 := (runList fs scenario name).foldl (processRun fs model name) st3
    Except.ok
      (if device_bad then
        { st4 with bad := mapSet st4.bad name (name ++ ": no such system id " ++ system_desc) }
      else { st4 with good := st4.good ++ [name] })

/-- Left fold that threads the walker state through `Except`. -/
def foldE {α : Type} (f : WalkState → α → Except Unit WalkState) :
    WalkState → List α → Except Unit WalkState
  | st, [] => Except.ok st
  | st, x :: xs =>
    match f st x with
    | Except.error e => Except.error e
    | Except.ok st1 => foldE f st1 xs

/-- The per-model loop body: the closed-division model-name check (note the
source tests `division in "closed"`, a substring test) and the scenario
loop. -/
def processModel (fs : FS) (division results_path system_desc : String)
    (device_bad : Bool) (st : WalkState) (model : String) : Except Unit WalkState :=
  let st1 :=
    if strContains division "closed" && !(VALID_MODELS.contains model) then
      { st with bad := (mapSet st.bad (pjoin system_desc model)
          (pjoin results_path system_desc ++ " has an invalid model name " ++ model)) }
    else st
  foldE (fun s sc => processScenario fs results_path system_desc model sc device_bad s)
    st1 (fs.dirsOf (pjoin (pjoin results_path system_desc) model))

/-- The per-system loop body: existence of the system-description JSON
decides `device_bad` for every submission under this system id. -/
def processSystem (fs : FS) (division submitter : String) (st : WalkState)
    (system_desc : String) : Except Unit WalkState :=
  let results_path := pjoin (pjoin division submitter) "results"
  let system_id_json :=
    pjoin (pjoin (pjoin division submitter) "systems") (system_desc ++ ".json")
  let device_bad := !(fs.pathExists system_id_json)
  foldE (processModel fs division results_path system_desc device_bad)
    st (fs.dirsOf (pjoin results_path system_desc))

/-- The per-submitter loop body (optional submitter filter, results-path
existence guard). -/
def processSubmitter (fs : FS) (division : String) (filt : Option String)
    (st : WalkState) (submitter : String) : Except Unit WalkState :=
  if (match filt with | some f => submitter != f | none => false) then Except.ok st
  else
    let results_path := pjoin (pjoin division submitter) "results"
    if fs.pathExists results_path = false then Except.ok st
    else foldE (processSystem fs division submitter) st (fs.dirsOf results_path)

/-- The per-division loop body: only `closed` and `open` are walked. -/
def processDivision (fs : FS) (filt : Option String) (st : WalkState)
    (division : String) : Except Unit WalkState :=
  if division ∈ ["closed", "open"] then
    foldE (processSubmitter fs division filt) st (fs.dirsOf division)
  else Except.ok st

/-- `check_results_dir` over the modelled file system. -/
def check_results_dir (fs : FS) (filt : Option String) : Except Unit WalkState :=
  foldE (processDivision fs filt) ⟨[], [], []⟩ (fs.dirsOf ".")

/-! ## Concrete scenario inputs used by the claim theorems -/

/-- The summary lines of end-to-end scenario C as the claim states them. -/
def c1SummaryLines : List String :=
  ["Result is : VALID", "Scenario : Single Stream",
   "90th percentile latency (ns) : 5000000"]

/-- Detail-log lines carrying the three Seed Table seeds. -/
def seedLines : List String :=
  ["qsl_rng_seed : 3133965575612453542",
   "sample_index_rng_seed : 665484352860916858",
   "schedule_rng_seed : 3622009729038561421"]

/-- Scenario C's summary augmented with the fields the code actually reads
from the summary-derived store: a sample count and the three seeds. -/
def c1SummaryFull : List String :=
  c1SummaryLines ++ ["performance_sample_count : 1024"] ++ seedLines

/-- A complete, seed-correct Offline summary used by several theorems. -/
def offlineSummary : List String :=
  ["Result is : VALID", "performance_sample_count : 1024",
   "Scenario : Offline", "Samples per second : 100"] ++ seedLines

/-- The submission path of the example walk below. -/
def exN : String := "closed/s/results/sys/mobilenet/Offline"

/-- A one-submission file system: the system-description JSON exists, the
performance run is complete and valid, but `accuracy.txt` is missing. -/
def exFS : FS where
  dirsOf := fun p =>
    if p = "." then ["closed"]
    else if p = "closed" then ["s"]
    else if p = "closed/s/results" then ["sys"]
    else if p = "closed/s/results/sys" then ["mobilenet"]
    else if p = "closed/s/results/sys/mobilenet" then ["Offline"]
    else []
  filesOf := fun p =>
    if p = exN ++ "/performance/run_1" then REQUIRED_PERF_FILES else []
  pathExists := fun p =>
    (["closed/s/results", "closed/s/systems/sys.json",
      exN ++ "/performance/run_1",
      exN ++ "/performance/run_1/mlperf_log_summary.txt",
      exN ++ "/performance/run_1/mlperf_log_detail.txt"] : List String).contains p
  linesOf := fun p =>
    if p = exN ++ "/performance/run_1/mlperf_log_summary.txt" then offlineSummary
    else []

/-- The walker state `check_results_dir` produces on `exFS` (the stored
performance result is the parsed `Samples per second` value `100`, written in
the exact arithmetic shape the float parser produces). -/
def exWalkOut : WalkState :=
  { good := [exN],
    bad := [(exN, exN ++ "/accuracy has no accuracy.txt")],
    results := [(exN, none), (exN, some (((1 : ℤ) : ℚ) * ((100 : ℕ) : ℚ)))] }

/-- An empty file system (used as a small witness input for the walker). -/
def fs0 : FS where
  dirsOf := fun _ => []
  filesOf := fun _ => []
  pathExists := fun _ => false
  linesOf := fun _ => []

/-- The state `processScenario` produces on `fs0` from the empty state with
`device_bad = false`. -/
def fs0ScenarioOut : WalkState :=
  { good := ["rp/sd/m/sc"],
    bad := [("rp/sd/m/sc", "rp/sd/m/sc/accuracy has no accuracy.txt"),
            ("rp/sd/m/sc", "rp/sd/m/sc/performance/. missing")],
    results := [("rp/sd/m/sc", none)] }

/-- The three seed entries appended to the summary store. -/
def seedTriple (q s c : String) : List (String × String) :=
  [("qsl_rng_seed", q), ("sample_index_rng_seed", s), ("schedule_rng_seed", c)]

/-- A summary identical to `offlineSummary` except for the seed values. -/
def c8AltSummary : List String :=
  ["Result is : VALID", "performance_sample_count : 1024",
   "Scenario : Offline", "Samples per second : 100",
   "qsl_rng_seed : 1", "sample_index_rng_seed : 2", "schedule_rng_seed : 3"]

/-- The non-seed summary entries shared by `offlineSummary` and
`c8AltSummary`. -/
def c8BaseKV : List (String × String) :=
  [("Result is", "VALID"), ("performance_sample_count", "1024"),
   ("Scenario", "Offline"), ("Samples per second", "100")]

/-! ## Theorems for the claims -/

/-- C6: `ignore_errors` returns true on every line, because its final
`"CAS failed"` branch tests a constant non-empty string literal and is
therefore unconditionally taken when reached, so no ERROR line of a detail
log is ever reported as a non-ignorable warning. -/
theorem c6_ignore_errors_always_true (line : String) :
    ignore_errors line = true := by
  unfold ignore_errors
  split
  · rfl
  · split
    · rfl
    · split
      · rfl
      · rw [if_pos]
        decide

/-- C5 counterexample: `"ssd-mobilenet"` is a key of the Performance Sample
Count Table, yet `model_map` does not return it unchanged: the
`startswith("ssd-mobilenet")` rule rewrites it to `"ssd-small"`.  So the
claim that `model_map` fixes every canonical model name is false. -/
theorem c5_model_map_not_idempotent_on_ssd_mobilenet :
    "ssd-mobilenet" ∈ PERFORMANCE_SAMPLE_COUNT.map Prod.fst ∧
      model_map "ssd-mobilenet" = some "ssd-small" ∧
      some "ssd-small" ≠ some "ssd-mobilenet" := by
  decide

/-- C5 (amended): `model_map` returns every key of the Performance Sample
Count Table unchanged, except for the key `"ssd-mobilenet"`, which it
rewrites to `"ssd-small"`. -/
theorem c5_model_map_fixes_canonical_except_ssd_mobilenet (c : String)
    (hmem : c ∈ PERFORMANCE_SAMPLE_COUNT.map Prod.fst)
    (hne : c ≠ "ssd-mobilenet") :
    model_map c = some c := by
  simp only [PERFORMANCE_SAMPLE_COUNT, List.map, List.mem_cons,
    List.not_mem_nil, or_false] at hmem
  rcases hmem with rfl | rfl | rfl | rfl | rfl | rfl | rfl | rfl
  · decide
  · decide
  · decide
  · exact absurd rfl hne
  · decide
  · decide
  · decide
  · decide

/-- C5 witness: the amended theorem applied at the canonical name `"resnet"`. -/
theorem c5_witness : model_map "resnet" = some "resnet" :=
  c5_model_map_fixes_canonical_except_ssd_mobilenet "resnet" (by decide) (by decide)

/-- C7: when `accuracy.txt` yields a parsed accuracy value `a` and the model
normalizes to a canonical model with target `t`, `check_accuracy_dir` returns
false whenever `a < t` and true when `a = t` (the comparison is
not-less-than, boundary inclusive). -/
theorem c7_accuracy_boundary (model m s : String) (a t : ℚ) (accLines : List String)
    (hscan : scanAccLines accLines = some s) (hf : pyFloat? s = some a)
    (hm : model_map model = some m) (ht : dictLookup ACCURAY_TARGET m = some t) :
    (a < t → check_accuracy_dir model accLines = Except.ok false) ∧
    (a = t → check_accuracy_dir model accLines = Except.ok true) := by
  simp only [check_accuracy_dir, hscan, hm, ht, hf]
  constructor
  · intro h
    rw [if_pos h]
  · intro h
    rw [if_neg]
    subst h
    exact lt_irrefl a

/-- C7 witness: `mAP=21.78` against model `ssd-small` (target `22 * 0.99`,
which is exactly `21.78`) is accepted. -/
theorem c7_witness : check_accuracy_dir "ssd-small" ["mAP=21.78"] = Except.ok true :=
  (c7_accuracy_boundary "ssd-small" "ssd-small" "21.78" (22 * 0.99) (22 * 0.99)
    ["mAP=21.78"]
    (by decide)
    (by
      have h : pyFloat? "21.78" =
          some (((1 : ℤ) : ℚ) * (((21 : ℕ) : ℚ) + ((78 : ℕ) : ℚ) / (10 : ℚ) ^ 2)) := rfl
      rw [h]
      norm_num)
    (by decide)
    rfl).2 rfl

/-- C9: when the actual-file list contains neither optional file, comparing
against any permutation of it yields an empty diff. -/
theorem c9_files_diff_perm_empty (A B : List String)
    (h1 : "mlperf_log_trace.json" ∉ A) (h2 : "results.json" ∉ A)
    (hperm : A.Perm B) :
    (files_diff A B).2.2 = [] := by
  rcases eq_or_ne A [] with rfl | hA
  · have hB : B = [] := (List.Perm.nil_eq hperm).symm
    subst hB
    rfl
  · have hB : B ≠ [] := by
      intro hb
      subst hb
      exact hA (List.Perm.eq_nil hperm)
    unfold files_diff
    rw [if_pos ⟨hA, hB⟩]
    have hl1 : (A.erase "mlperf_log_trace.json").erase "results.json" = A := by
      rw [List.erase_of_not_mem h1, List.erase_of_not_mem h2]
    rw [hl1]
    have hlen : ¬ (B.length < A.length) := by
      rw [hperm.length_eq]
      exact lt_irrefl _
    rw [if_neg hlen]
    have hfil : B.filter (fun f => !(A.contains f)) = [] := by
      apply List.filter_eq_nil_iff.mpr
      intro b hb
      have : b ∈ A := (List.Perm.mem_iff hperm.symm).mp hb
      simp [this]
    simp only [hfil, List.dedup_nil]

/-- C9 witness: a two-element list against its reversal. -/
theorem c9_witness : (files_diff ["a", "b"] ["b", "a"]).2.2 = [] :=
  c9_files_diff_perm_empty ["a", "b"] ["b", "a"] (by decide) (by decide) (by decide)

/-- C10: on non-empty inputs, `files_diff` leaves its first argument with the
first occurrences of the two optional files removed (the in-place
`list.remove` mutation seen by the caller) and never modifies its second
argument. -/
theorem c10_files_diff_mutation (A B : List String) (hA : A ≠ []) (hB : B ≠ []) :
    (files_diff A B).1 = (A.erase "mlperf_log_trace.json").erase "results.json" ∧
      (files_diff A B).2.1 = B := by
  unfold files_diff
  rw [if_pos ⟨hA, hB⟩]
  split
  · exact ⟨rfl, rfl⟩
  · exact ⟨rfl, rfl⟩

/-- C10 witness: the mutation at a concrete input containing an optional
file. -/
theorem c10_witness :
    (files_diff ["mlperf_log_trace.json", "x"] ["y"]).1 =
        ((["mlperf_log_trace.json", "x"] : List String).erase
          "mlperf_log_trace.json").erase "results.json" ∧
      (files_diff ["mlperf_log_trace.json", "x"] ["y"]).2.1 = ["y"] :=
  c10_files_diff_mutation ["mlperf_log_trace.json", "x"] ["y"] (by decide) (by decide)

/-- C3 counterexample: at a concrete failing load with an initially empty
error list, `compare_json` adds a new error yet returns `false`; so its
return value is not "whether any new error was added" but the opposite
polarity. -/
theorem c3_return_value_polarity :
    ¬ (((compare_json "f" (Except.error ()) [] []).1 = true) ↔
        (compare_json "f" (Except.error ()) [] []).2.length ≠ ([] : List String).length) := by
  decide

/-- C3 (amended): `compare_json` never raises (parse/IO failures are recorded
as exactly one appended error entry), and its boolean return value is true
exactly when NO new error was added during the call (so callers
short-circuit on `false`). -/
theorem c3_returns_true_iff_no_new_error (fname : String)
    (loaded : Except Unit (List (String × Option Unit)))
    (template : List (String × String)) (errors : List String) :
    ((compare_json fname loaded template errors).1 = true ↔
      (compare_json fname loaded template errors).2.length = errors.length) ∧
    (∀ e : Unit, loaded = Except.error e →
      (compare_json fname loaded template errors).2 =
        errors ++ [fname ++ " unexpected error"]) := by
  constructor
  · simp only [compare_json]
    rw [decide_eq_true_iff]
    exact eq_comm
  · intro e he
    subst he
    rfl

/-- C3 witness: the amended theorem applied at a concrete failing load. -/
theorem c3_witness :
    (compare_json "g" (Except.error ()) [] ["old"]).2 = ["old", "g unexpected error"] :=
  (c3_returns_true_iff_no_new_error "g" (Except.error ()) [] ["old"]).2 () rfl

/-- C1: the code diverges from end-to-end scenario C.  On the scenario's
exact inputs (summary with the three quoted lines, detail log carrying the
three correct seeds) `check_performance_dir` raises (KeyError): it reads
`performance_sample_count` and the seeds from the summary-derived store, not
from the detail log.  Even when those fields are added to the summary, it
returns latency `5000000`, not `5.0`: the parsed `Scenario` value is
truncated at whitespace to `"Single"`, so the `Single Stream` division by
one million never fires. -/
theorem c1_scenario_c_diverges :
    (check_performance_dir "mobilenet" c1SummaryLines seedLines).1 = Except.error () ∧
      (check_performance_dir "mobilenet" c1SummaryFull seedLines).1 =
        Except.ok (true, 5000000) ∧
      (5000000 : ℚ) ≠ 5 := by
  refine ⟨by decide, ?_, by decide⟩
  have h : (check_performance_dir "mobilenet" c1SummaryFull seedLines).1 =
      Except.ok (true, ((1 : ℤ) : ℚ) * ((5000000 : ℕ) : ℚ)) := rfl
  rw [h]
  norm_num

/-- Helper for C4: with an unknown model, the sample-count phase emits the
"not checked" message and passes the summary validity flag through, so the
whole check logs that message and can only return the summary's own
validity. -/
theorem perfFromRt_unknown_model (v : Bool) (rt : List (String × String))
    (d? : Option (List String)) :
    "performance_sample_count not checked, bad model name None" ∈
        (perfFromRt none v rt d?).2 ∧
      ∀ b r, (perfFromRt none v rt d?).1 = Except.ok (b, r) → b = v := by
  have hs : sampleCountPhase none v rt =
      (some v, ["performance_sample_count not checked, bad model name None"]) := rfl
  cases d? with
  | none =>
    simp only [perfFromRt, hs]
    constructor
    · simp
    · intro b r hbr
      simp at hbr
  | some dl =>
    simp only [perfFromRt, hs]
    by_cases hseeds : (checkSeeds seedNames rt).1 = true
    · rw [if_pos hseeds]
      cases hres : resultPhase rt with
      | error e =>
        constructor
        · simp
        · intro b r hbr
          simp at hbr
      | ok res =>
        constructor
        · simp
        · intro b r hbr
          simp only [Except.ok.injEq, Prod.mk.injEq] at hbr
          exact hbr.1.symm
    · rw [if_neg hseeds]
      constructor
      · simp
      · intro b r hbr
        simp at hbr

/-- C4 counterexample: with the unknown raw model name `"foo"` and a summary
whose Result line says VALID (seeds and scenario fields present), the check
returns validity TRUE while logging the "not checked" message — the unknown
model does not mark the run invalid, contradicting the claim. -/
theorem c4_unknown_model_still_valid :
    model_map "foo" = none ∧
      validityOf (check_performance_dir "foo" offlineSummary []).1 = some true ∧
      "performance_sample_count not checked, bad model name None" ∈
        (check_performance_dir "foo" offlineSummary []).2 := by
  refine ⟨by decide, ?_, by decide⟩
  decide

/-- C4 (amended): when the raw model name does not normalize to a key of the
Performance Sample Count Table, `check_performance_dir` reports the
"not checked" message but leaves the validity flag unchanged: whenever it
returns, the returned validity is exactly the flag the summary's Result line
produced. -/
theorem c4_unknown_model_logged_only (model : String) (S D : List String)
    (h : model_map model = none) :
    "performance_sample_count not checked, bad model name None" ∈
        (check_performance_dir model S D).2 ∧
      ∀ b r, (check_performance_dir model S D).1 = Except.ok (b, r) →
        b = (parseSummary S).1 := by
  have hmain := perfFromRt_unknown_model (parseSummary S).1 (parseSummary S).2 (some D)
  simpa [check_performance_dir, h] using hmain

/-- C4 witness: the amended theorem applied at the unknown model `"foo"`. -/
theorem c4_witness :
    "performance_sample_count not checked, bad model name None" ∈
      (check_performance_dir "foo" offlineSummary []).2 :=
  (c4_unknown_model_logged_only "foo" offlineSummary [] (by decide)).1

/-- Helper for C2: the per-run performance loop never touches the good
list. -/
theorem processRun_good (fs : FS) (model name : String) (st : WalkState) (i : String) :
    (processRun fs model name st i).good = st.good := by
  simp only [processRun]
  repeat' split
  all_goals rfl

/-- Helper for C2: folding the per-run loop never touches the good list. -/
theorem foldl_processRun_good (fs : FS) (model name : String) :
    ∀ (l : List String) (st : WalkState),
      (l.foldl (processRun fs model name) st).good = st.good := by
  intro l
  induction l with
  | nil => intro st; rfl
  | cons x xs ih =>
    intro st
    rw [List.foldl_cons, ih, processRun_good]

/-- C2 counterexample: a walk (`exFS`) on which the submission path lands in
the good list AND among the bad-submission keys: its accuracy directory is
bad (no `accuracy.txt`) but the system-description JSON exists, and the
walker appends to the good list whenever the system JSON exists, regardless
of recorded bad entries.  So good list and bad-map keys are not disjoint. -/
theorem c2_good_and_bad_overlap :
    check_results_dir exFS none = Except.ok exWalkOut ∧
      exN ∈ exWalkOut.good ∧ exN ∈ exWalkOut.bad.map Prod.fst := by
  refine ⟨rfl, by decide, by decide⟩

/-- C2 (amended): in every completed per-scenario step of the walker, the
submission path is appended to the good list exactly when the
system-description JSON exists for its system id (`device_bad = false`);
earlier bad-submission entries for the same path do not prevent the append,
so the good list and the bad-map key set need not be disjoint. -/
theorem c2_good_appended_iff_system_json (fs : FS) (rp sd model sc : String)
    (dbad : Bool) (st st' : WalkState)
    (h : processScenario fs rp sd model sc dbad st = Except.ok st') :
    st'.good = st.good ++
      (if dbad then [] else [pjoin (pjoin (pjoin rp sd) model) sc]) := by
  simp only [processScenario] at h
  split at h
  · exact absurd h (by simp)
  · rename_i st3 heq
    simp only [Except.ok.injEq] at h
    subst h
    have h3 : st3.good = st.good := by
      repeat' split at heq
      all_goals
        first
          | (simp only [Except.ok.injEq] at heq
             subst heq
             rfl)
          | simp at heq
    have h4 := foldl_processRun_good fs model (pjoin (pjoin (pjoin rp sd) model) sc)
      (runList fs sc (pjoin (pjoin (pjoin rp sd) model) sc)) st3
    cases dbad with
    | false => simp [h4, h3]
    | true => simp [h4, h3]

/-- C2 witness: the amended theorem applied to a concrete completed step on
the empty file system with the system JSON present. -/
theorem c2_witness :
    fs0ScenarioOut.good = ([] : List String) ++
      (if false then [] else [pjoin (pjoin (pjoin "rp" "sd") "m") "sc"]) :=
  c2_good_appended_iff_system_json fs0 "rp" "sd" "m" "sc" false ⟨[], [], []⟩
    fs0ScenarioOut (by decide)

/-- Helper for C8: last-wins lookup in an appended store prefers the
suffix. -/
theorem rtLookup_append (a b : List (String × String)) (k : String) :
    rtLookup (a ++ b) k =
      match rtLookup b k with
      | some v => some v
      | none => rtLookup a k := by
  induction a with
  | nil =>
    simp only [List.nil_append]
    cases rtLookup b k <;> rfl
  | cons p rest ih =>
    obtain ⟨k0, v0⟩ := p
    have step : rtLookup (((k0, v0) :: rest) ++ b) k =
        match rtLookup (rest ++ b) k with
        | some v => some v
        | none => if k0 = k then some v0 else none := rfl
    rw [step, ih]
    cases rtLookup b k <;> rfl

/-- Helper for C8: the seed triple defines no other key. -/
theorem rtLookup_seedTriple_of_not_seed (q s c k : String)
    (h1 : k ≠ "qsl_rng_seed") (h2 : k ≠ "sample_index_rng_seed")
    (h3 : k ≠ "schedule_rng_seed") :
    rtLookup (seedTriple q s c) k = none := by
  have e1 : ("qsl_rng_seed" = k) = False := eq_false (fun hh => h1 hh.symm)
  have e2 : ("sample_index_rng_seed" = k) = False := eq_false (fun hh => h2 hh.symm)
  have e3 : ("schedule_rng_seed" = k) = False := eq_false (fun hh => h3 hh.symm)
  simp [seedTriple, rtLookup, e1, e2, e3]

/-- Helper for C8: the seed triple yields its own values. -/
theorem rtLookup_seedTriple_qsl (q s c : String) :
    rtLookup (seedTriple q s c) "qsl_rng_seed" = some q := rfl

/-- Helper for C8. -/
theorem rtLookup_seedTriple_sir (q s c : String) :
    rtLookup (seedTriple q s c) "sample_index_rng_seed" = some s := rfl

/-- Helper for C8. -/
theorem rtLookup_seedTriple_sch (q s c : String) :
    rtLookup (seedTriple q s c) "schedule_rng_seed" = some c := rfl

/-- Helper for C8: the sample-count phase reads the store only at
`performance_sample_count`. -/
theorem sampleCountPhase_congr (mOpt : Option String) (v : Bool)
    (rt1 rt2 : List (String × String))
    (h : rtLookup rt1 "performance_sample_count" =
      rtLookup rt2 "performance_sample_count") :
    sampleCountPhase mOpt v rt1 = sampleCountPhase mOpt v rt2 := by
  unfold sampleCountPhase
  rw [h]

/-- Helper for C8: a result field name produced by the Result Value Key
Table is never a seed name. -/
theorem result_key_not_seed (scen k : String)
    (h : dictLookup RESULT_VALUE scen = some k) :
    k ≠ "qsl_rng_seed" ∧ k ≠ "sample_index_rng_seed" ∧ k ≠ "schedule_rng_seed" := by
  simp only [RESULT_VALUE, dictLookup] at h
  repeat' split at h
  all_goals first
    | (cases h; decide)
    | (cases h)

/-- Helper for C8: the result-extraction phase reads the store only at
`Scenario` and at the table-produced result field name. -/
theorem resultPhase_congr (rt1 rt2 : List (String × String))
    (hS : rtLookup rt1 "Scenario" = rtLookup rt2 "Scenario")
    (hk : ∀ k scen, rtLookup rt2 "Scenario" = some scen →
      dictLookup RESULT_VALUE scen = some k → rtLookup rt1 k = rtLookup rt2 k) :
    resultPhase rt1 = resultPhase rt2 := by
  unfold resultPhase
  rw [hS]
  cases hscen : rtLookup rt2 "Scenario" with
  | none => rfl
  | some scen =>
    dsimp only
    cases hkey : dictLookup RESULT_VALUE scen with
    | none => rfl
    | some key =>
      dsimp only
      rw [hk key scen hscen hkey]

/-- Helper for C8: the seed loop completes without raising when all three
seeds are present and parse as integers. -/
theorem checkSeeds_fst_true (rt : List (String × String)) (q s c : String)
    (hq : rtLookup rt "qsl_rng_seed" = some q)
    (hs : rtLookup rt "sample_index_rng_seed" = some s)
    (hc : rtLookup rt "schedule_rng_seed" = some c)
    (hqi : (pyInt? q).isSome = true) (hsi : (pyInt? s).isSome = true)
    (hci : (pyInt? c).isSome = true) :
    (checkSeeds seedNames rt).1 = true := by
  obtain ⟨nq, hnq⟩ := Option.isSome_iff_exists.mp hqi
  obtain ⟨ns, hns⟩ := Option.isSome_iff_exists.mp hsi
  obtain ⟨nc, hnc⟩ := Option.isSome_iff_exists.mp hci
  simp [seedNames, checkSeeds, hq, hs, hc, hnq, hns, hnc, SEEDS, dictLookup]

/-- Helper for C8: the validity flag of the performance check, given that
the seed loop does not raise, is determined by the sample-count phase and
the result phase alone (the seed comparisons only log). -/
theorem validityOf_perfFromRt (mOpt : Option String) (v : Bool)
    (rt : List (String × String)) (d : List String)
    (hseeds : (checkSeeds seedNames rt).1 = true) :
    validityOf (perfFromRt mOpt v rt (some d)).1 =
      match (sampleCountPhase mOpt v rt).1, resultPhase rt with
      | some v1, Except.ok _ => some v1
      | _, _ => none := by
  cases hp : (sampleCountPhase mOpt v rt).1 with
  | none =>
    simp only [perfFromRt, hp]
    cases resultPhase rt <;> rfl
  | some v1 =>
    simp only [perfFromRt, hp, hseeds, if_true]
    cases hr : resultPhase rt with
    | error e => rfl
    | ok res => rfl

/-- C8: two performance inputs whose parsed summaries are identical except
for the values of the three seed fields (all seeds present and parseable as
integers in both) produce the same validity flag: seed mismatches are only
logged and never flip validity. -/
theorem c8_seed_noninterference (model : String) (S1 S2 D : List String) (v : Bool)
    (base : List (String × String)) (q1 s1 c1 q2 s2 c2 : String)
    (h1 : parseSummary S1 = (v, base ++ seedTriple q1 s1 c1))
    (h2 : parseSummary S2 = (v, base ++ seedTriple q2 s2 c2))
    (hq1 : (pyInt? q1).isSome = true) (hs1 : (pyInt? s1).isSome = true)
    (hc1 : (pyInt? c1).isSome = true) (hq2 : (pyInt? q2).isSome = true)
    (hs2 : (pyInt? s2).isSome = true) (hc2 : (pyInt? c2).isSome = true) :
    validityOf (check_performance_dir model S1 D).1 =
      validityOf (check_performance_dir model S2 D).1 := by
  have hub1 : check_performance_dir model S1 D =
      perfFromRt (model_map model) v (base ++ seedTriple q1 s1 c1) (some D) := by
    simp only [check_performance_dir, h1]
  have hub2 : check_performance_dir model S2 D =
      perfFromRt (model_map model) v (base ++ seedTriple q2 s2 c2) (some D) := by
    simp only [check_performance_dir, h2]
  have hoffk : ∀ k, k ≠ "qsl_rng_seed" → k ≠ "sample_index_rng_seed" →
      k ≠ "schedule_rng_seed" →
      rtLookup (base ++ seedTriple q1 s1 c1) k =
        rtLookup (base ++ seedTriple q2 s2 c2) k := by
    intro k hk1 hk2 hk3
    rw [rtLookup_append, rtLookup_append,
      rtLookup_seedTriple_of_not_seed q1 s1 c1 k hk1 hk2 hk3,
      rtLookup_seedTriple_of_not_seed q2 s2 c2 k hk1 hk2 hk3]
  have hsc := sampleCountPhase_congr (model_map model) v
    (base ++ seedTriple q1 s1 c1) (base ++ seedTriple q2 s2 c2)
    (hoffk _ (by decide) (by decide) (by decide))
  have hres := resultPhase_congr (base ++ seedTriple q1 s1 c1)
    (base ++ seedTriple q2 s2 c2)
    (hoffk _ (by decide) (by decide) (by decide))
    (by
      intro k scen hscen hkey
      obtain ⟨n1, n2, n3⟩ := result_key_not_seed scen k hkey
      exact hoffk k n1 n2 n3)
  have ht1 : (checkSeeds seedNames (base ++ seedTriple q1 s1 c1)).1 = true := by
    refine checkSeeds_fst_true _ q1 s1 c1 ?_ ?_ ?_ hq1 hs1 hc1
    · rw [rtLookup_append, rtLookup_seedTriple_qsl]
    · rw [rtLookup_append, rtLookup_seedTriple_sir]
    · rw [rtLookup_append, rtLookup_seedTriple_sch]
  have ht2 : (checkSeeds seedNames (base ++ seedTriple q2 s2 c2)).1 = true := by
    refine checkSeeds_fst_true _ q2 s2 c2 ?_ ?_ ?_ hq2 hs2 hc2
    · rw [rtLookup_append, rtLookup_seedTriple_qsl]
    · rw [rtLookup_append, rtLookup_seedTriple_sir]
    · rw [rtLookup_append, rtLookup_seedTriple_sch]
  rw [hub1, hub2, validityOf_perfFromRt _ _ _ _ ht1, validityOf_perfFromRt _ _ _ _ ht2,
    hsc, hres]

/-- C8 witness: correct seeds versus the wrong seeds 1, 2, 3 — same
validity. -/
theorem c8_witness :
    validityOf (check_performance_dir "mobilenet" offlineSummary []).1 =
      validityOf (check_performance_dir "mobilenet" c8AltSummary []).1 :=
  c8_seed_noninterference "mobilenet" offlineSummary c8AltSummary [] true c8BaseKV
    "3133965575612453542" "665484352860916858" "3622009729038561421" "1" "2" "3"
    (by decide) (by decide) (by decide) (by decide)
    (by decide) (by decide) (by decide) (by decide)

end SubmissionChecker
